import Mathlib

/-!
# Verification of a Chip-8 decode/execute engine

Shallow embedding of the emulator's two source files:
* `instruction.rs` — the `Instruction` enum and `Instruction::parse`;
* `main.rs` — `Display`, `Keyboard`, `bits`, and the `System` struct with
  `fetch_instr` and `apply`.

Machine integers are modelled as `Nat` with explicit `% 2^w` where the Rust
code wraps (release-mode semantics: `wrapping_add`, `overflowing_add`,
`overflowing_sub`, `+=` on `u16`).  A Rust panic (out-of-bounds array or
slice index) is modelled by returning `none` from the fallible operations,
so `System.apply` has type `… → Option System`: `some s'` is a completed
instruction, `none` is an aborted (panicking) execution with no observable
successor state.  Fixed-size Rust arrays are modelled as total functions
out of `Nat`; every index the code actually uses is shown (or guarded) to
be in range, and out-of-range indices that the code *can* reach are
exactly the `none` cases.
-/

namespace Chip8

/-- A 12-bit value (`type Addr = u16` in `instruction.rs`). -/
abbrev Addr := Nat

/-- A 4-bit value (`type Nibble = u8`). -/
abbrev Nibble := Nat

/-- An 8-bit value (`type Byte = u8`). -/
abbrev Byte := Nat

/-- The Chip-8 instruction enum of `instruction.rs`, variant for variant. -/
inductive Instruction where
  | Sys (nnn : Addr)
  | Cls
  | Ret
  | Jp (nnn : Addr)
  | Call (nnn : Addr)
  | Se (x : Nibble) (kk : Byte)
  | Sne (x : Nibble) (kk : Byte)
  | SeReg (x y : Nibble)
  | Ld (x : Nibble) (kk : Byte)
  | AddReg (x : Nibble) (kk : Byte)
  | LdReg (x y : Nibble)
  | Or (x y : Nibble)
  | And (x y : Nibble)
  | Xor (x y : Nibble)
  | AddCarry (x y : Nibble)
  | Sub (x y : Nibble)
  | Shr (x y : Nibble)
  | Subn (x y : Nibble)
  | Shl (x y : Nibble)
  | SneReg (x y : Nibble)
  | LdI (nnn : Addr)
  | JpV0 (nnn : Addr)
  | Rnd (x : Nibble) (kk : Byte)
  | Drw (x y n : Nibble)
  | Skp (x : Nibble)
  | Sknp (x : Nibble)
  | LdDelayTimerValue (x : Nibble)
  | LdKeypress (x : Nibble)
  | LdDelayTimerReg (x : Nibble)
  | LdSoundTimer (x : Nibble)
  | AddI (x : Nibble)
  | LdSprite (x : Nibble)
  | LdBCD (x : Nibble)
  | LdStoreV0 (x : Nibble)
  | LdReadV0 (x : Nibble)
  deriving DecidableEq, Repr

namespace Instruction

/-- `get_x` of `instruction.rs`: `((val & 0x0f00) >> 8) as u8`. -/
def get_x (val : Nat) : Nibble := (val &&& 0x0f00) >>> 8

/-- `get_y` of `instruction.rs`: `((val & 0x00f0) >> 4) as u8`. -/
def get_y (val : Nat) : Nibble := (val &&& 0x00f0) >>> 4

/-- `get_addr` of `instruction.rs`: `val & 0x0fff`. -/
def get_addr (val : Nat) : Addr := val &&& 0x0fff

/-- `get_byte` of `instruction.rs`: `(val & 0x00ff) as u8`. -/
def get_byte (val : Nat) : Byte := val &&& 0x00ff

/-- `get_nibble` of `instruction.rs`: `(val & 0x000f) as u8`. -/
def get_nibble (val : Nat) : Nibble := val &&& 0x000f

/-- First (most-significant) nibble scrutinised by `Instruction::parse`:
`(val & 0xf000) >> 12`. -/
def nib0 (val : Nat) : Nat := (val &&& 0xf000) >>> 12

/-- Second nibble scrutinised by `Instruction::parse`: `(val & 0x0f00) >> 8`. -/
def nib1 (val : Nat) : Nat := (val &&& 0x0f00) >>> 8

/-- Third nibble scrutinised by `Instruction::parse`: `(val & 0x00f0) >> 4`. -/
def nib2 (val : Nat) : Nat := (val &&& 0x00f0) >>> 4

/-- Fourth (least-significant) nibble scrutinised by `Instruction::parse`:
`(val & 0x000f) >> 0`. -/
def nib3 (val : Nat) : Nat := (val &&& 0x000f) >>> 0

/-- `Instruction::parse` of `instruction.rs`.  The Rust function matches
the tuple of the word's four nibbles (most-significant first) against the
source's arm list, first match wins; each Rust pattern becomes one ordered
guard here (`_` positions impose no condition), and the catch-all gives
`none`. -/
def parse (val : Nat) : Option Instruction :=
  if nib0 val = 0x0 ∧ nib1 val = 0x0 ∧ nib2 val = 0xe ∧ nib3 val = 0x0 then some Cls
  else if nib0 val = 0x0 ∧ nib1 val = 0x0 ∧ nib2 val = 0xe ∧ nib3 val = 0xe then some Ret
  else if nib0 val = 0x0 then some (Sys (get_addr val))
  else if nib0 val = 0x1 then some (Jp (get_addr val))
  else if nib0 val = 0x2 then some (Call (get_addr val))
  else if nib0 val = 0x3 then some (Se (get_x val) (get_byte val))
  else if nib0 val = 0x4 then some (Sne (get_x val) (get_byte val))
  else if nib0 val = 0x5 ∧ nib3 val = 0x0 then some (SeReg (get_x val) (get_y val))
  else if nib0 val = 0x6 then some (Ld (get_x val) (get_byte val))
  else if nib0 val = 0x7 then some (AddReg (get_x val) (get_byte val))
  else if nib0 val = 0x8 ∧ nib3 val = 0x0 then some (LdReg (get_x val) (get_y val))
  else if nib0 val = 0x8 ∧ nib3 val = 0x1 then some (Or (get_x val) (get_y val))
  else if nib0 val = 0x8 ∧ nib3 val = 0x2 then some (And (get_x val) (get_y val))
  else if nib0 val = 0x8 ∧ nib3 val = 0x3 then some (Xor (get_x val) (get_y val))
  else if nib0 val = 0x8 ∧ nib3 val = 0x4 then some (AddCarry (get_x val) (get_y val))
  else if nib0 val = 0x8 ∧ nib3 val = 0x5 then some (Sub (get_x val) (get_y val))
  else if nib0 val = 0x8 ∧ nib3 val = 0x6 then some (Shr (get_x val) (get_y val))
  else if nib0 val = 0x8 ∧ nib3 val = 0x7 then some (Subn (get_x val) (get_y val))
  else if nib0 val = 0x8 ∧ nib3 val = 0xe then some (Shl (get_x val) (get_y val))
  else if nib0 val = 0x9 ∧ nib3 val = 0x0 then some (SneReg (get_x val) (get_y val))
  else if nib0 val = 0xa then some (LdI (get_addr val))
  else if nib0 val = 0xb then some (JpV0 (get_addr val))
  else if nib0 val = 0xc then some (Rnd (get_x val) (get_byte val))
  else if nib0 val = 0xd then some (Drw (get_x val) (get_y val) (get_nibble val))
  else if nib0 val = 0xe ∧ nib2 val = 0x9 ∧ nib3 val = 0xe then some (Skp (get_x val))
  else if nib0 val = 0xe ∧ nib2 val = 0xa ∧ nib3 val = 0x1 then some (Sknp (get_x val))
  else if nib0 val = 0xf ∧ nib2 val = 0x0 ∧ nib3 val = 0x7 then some (LdDelayTimerValue (get_x val))
  else if nib0 val = 0xf ∧ nib2 val = 0x0 ∧ nib3 val = 0xa then some (LdKeypress (get_x val))
  else if nib0 val = 0xf ∧ nib2 val = 0x1 ∧ nib3 val = 0x5 then some (LdDelayTimerReg (get_x val))
  else if nib0 val = 0xf ∧ nib2 val = 0x1 ∧ nib3 val = 0x8 then some (LdSoundTimer (get_x val))
  else if nib0 val = 0xf ∧ nib2 val = 0x1 ∧ nib3 val = 0xe then some (AddI (get_x val))
  else if nib0 val = 0xf ∧ nib2 val = 0x2 ∧ nib3 val = 0x9 then some (LdSprite (get_x val))
  else if nib0 val = 0xf ∧ nib2 val = 0x3 ∧ nib3 val = 0x3 then some (LdBCD (get_x val))
  else if nib0 val = 0xf ∧ nib2 val = 0x5 ∧ nib3 val = 0x5 then some (LdStoreV0 (get_x val))
  else if nib0 val = 0xf ∧ nib2 val = 0x6 ∧ nib3 val = 0x5 then some (LdReadV0 (get_x val))
  else none

end Instruction

/-- The decode table of §4.1 of the specification, written from the spec's
words: operand extraction `x = nibble 1`, `y = nibble 2`, `n = nibble 3`,
`addr = w & 0x0FFF`, `byte = w & 0x00FF` (phrased arithmetically as
divisions and remainders), rows in table order (`00E0` and `00EE` before
the generic `0nnn`); every word matching no row is a decode error
(`none`). -/
def specDecode (w : Nat) : Option Instruction :=
  if w = 0x00E0 then some .Cls
  else if w = 0x00EE then some .Ret
  else if w / 0x1000 = 0x0 then some (.Sys (w % 0x1000))
  else if w / 0x1000 = 0x1 then some (.Jp (w % 0x1000))
  else if w / 0x1000 = 0x2 then some (.Call (w % 0x1000))
  else if w / 0x1000 = 0x3 then some (.Se (w / 0x100 % 16) (w % 0x100))
  else if w / 0x1000 = 0x4 then some (.Sne (w / 0x100 % 16) (w % 0x100))
  else if w / 0x1000 = 0x5 ∧ (w % 16) = 0x0 then some (.SeReg (w / 0x100 % 16) (w / 0x10 % 16))
  else if w / 0x1000 = 0x6 then some (.Ld (w / 0x100 % 16) (w % 0x100))
  else if w / 0x1000 = 0x7 then some (.AddReg (w / 0x100 % 16) (w % 0x100))
  else if w / 0x1000 = 0x8 ∧ (w % 16) = 0x0 then some (.LdReg (w / 0x100 % 16) (w / 0x10 % 16))
  else if w / 0x1000 = 0x8 ∧ (w % 16) = 0x1 then some (.Or (w / 0x100 % 16) (w / 0x10 % 16))
  else if w / 0x1000 = 0x8 ∧ (w % 16) = 0x2 then some (.And (w / 0x100 % 16) (w / 0x10 % 16))
  else if w / 0x1000 = 0x8 ∧ (w % 16) = 0x3 then some (.Xor (w / 0x100 % 16) (w / 0x10 % 16))
  else if w / 0x1000 = 0x8 ∧ (w % 16) = 0x4 then some (.AddCarry (w / 0x100 % 16) (w / 0x10 % 16))
  else if w / 0x1000 = 0x8 ∧ (w % 16) = 0x5 then some (.Sub (w / 0x100 % 16) (w / 0x10 % 16))
  else if w / 0x1000 = 0x8 ∧ (w % 16) = 0x6 then some (.Shr (w / 0x100 % 16) (w / 0x10 % 16))
  else if w / 0x1000 = 0x8 ∧ (w % 16) = 0x7 then some (.Subn (w / 0x100 % 16) (w / 0x10 % 16))
  else if w / 0x1000 = 0x8 ∧ (w % 16) = 0xe then some (.Shl (w / 0x100 % 16) (w / 0x10 % 16))
  else if w / 0x1000 = 0x9 ∧ (w % 16) = 0x0 then some (.SneReg (w / 0x100 % 16) (w / 0x10 % 16))
  else if w / 0x1000 = 0xa then some (.LdI (w % 0x1000))
  else if w / 0x1000 = 0xb then some (.JpV0 (w % 0x1000))
  else if w / 0x1000 = 0xc then some (.Rnd (w / 0x100 % 16) (w % 0x100))
  else if w / 0x1000 = 0xd then some (.Drw (w / 0x100 % 16) (w / 0x10 % 16) (w % 16))
  else if w / 0x1000 = 0xe ∧ (w % 0x100) = 0x9e then some (.Skp (w / 0x100 % 16))
  else if w / 0x1000 = 0xe ∧ (w % 0x100) = 0xa1 then some (.Sknp (w / 0x100 % 16))
  else if w / 0x1000 = 0xf ∧ (w % 0x100) = 0x07 then some (.LdDelayTimerValue (w / 0x100 % 16))
  else if w / 0x1000 = 0xf ∧ (w % 0x100) = 0x0a then some (.LdKeypress (w / 0x100 % 16))
  else if w / 0x1000 = 0xf ∧ (w % 0x100) = 0x15 then some (.LdDelayTimerReg (w / 0x100 % 16))
  else if w / 0x1000 = 0xf ∧ (w % 0x100) = 0x18 then some (.LdSoundTimer (w / 0x100 % 16))
  else if w / 0x1000 = 0xf ∧ (w % 0x100) = 0x1e then some (.AddI (w / 0x100 % 16))
  else if w / 0x1000 = 0xf ∧ (w % 0x100) = 0x29 then some (.LdSprite (w / 0x100 % 16))
  else if w / 0x1000 = 0xf ∧ (w % 0x100) = 0x33 then some (.LdBCD (w / 0x100 % 16))
  else if w / 0x1000 = 0xf ∧ (w % 0x100) = 0x55 then some (.LdStoreV0 (w / 0x100 % 16))
  else if w / 0x1000 = 0xf ∧ (w % 0x100) = 0x65 then some (.LdReadV0 (w / 0x100 % 16))
  else none

/-- Right shift distributes over bitwise and. -/
theorem and_shiftRight_distrib (x y k : Nat) :
    (x &&& y) >>> k = (x >>> k) &&& (y >>> k) := by
  apply Nat.eq_of_testBit_eq
  intro i
  simp [Nat.testBit_shiftRight, Nat.testBit_and]

/-- Extracting the top nibble by mask and shift is division by `0x1000`
followed by a remainder. -/
theorem mask_f000 (w : Nat) : (w &&& 0xf000) >>> 12 = w / 4096 % 16 := by
  rw [and_shiftRight_distrib]
  have h : (0xf000 : Nat) >>> 12 = 2 ^ 4 - 1 := by decide
  rw [h, Nat.and_pow_two_sub_one_eq_mod, Nat.shiftRight_eq_div_pow]

/-- Nibble 1 by mask and shift, arithmetically. -/
theorem mask_0f00 (w : Nat) : (w &&& 0x0f00) >>> 8 = w / 256 % 16 := by
  rw [and_shiftRight_distrib]
  have h : (0x0f00 : Nat) >>> 8 = 2 ^ 4 - 1 := by decide
  rw [h, Nat.and_pow_two_sub_one_eq_mod, Nat.shiftRight_eq_div_pow]

/-- Nibble 2 by mask and shift, arithmetically. -/
theorem mask_00f0 (w : Nat) : (w &&& 0x00f0) >>> 4 = w / 16 % 16 := by
  rw [and_shiftRight_distrib]
  have h : (0x00f0 : Nat) >>> 4 = 2 ^ 4 - 1 := by decide
  rw [h, Nat.and_pow_two_sub_one_eq_mod, Nat.shiftRight_eq_div_pow]

/-- Nibble 3 by mask, arithmetically. -/
theorem mask_000f (w : Nat) : (w &&& 0x000f) >>> 0 = w % 16 := by
  have h : (0x000f : Nat) = 2 ^ 4 - 1 := by norm_num
  rw [Nat.shiftRight_zero, h, Nat.and_pow_two_sub_one_eq_mod]

/-- The 12-bit address mask, arithmetically. -/
theorem mask_0fff (w : Nat) : w &&& 0x0fff = w % 4096 := by
  have h : (0x0fff : Nat) = 2 ^ 12 - 1 := by norm_num
  rw [h, Nat.and_pow_two_sub_one_eq_mod]

/-- The low-byte mask, arithmetically. -/
theorem mask_00ff (w : Nat) : w &&& 0x00ff = w % 256 := by
  have h : (0x00ff : Nat) = 2 ^ 8 - 1 := by norm_num
  rw [h, Nat.and_pow_two_sub_one_eq_mod]

/-- `nib0` computes the top nibble. -/
theorem nib0_eq (w : Nat) : Instruction.nib0 w = w / 4096 % 16 := mask_f000 w

/-- `nib1` computes nibble 1. -/
theorem nib1_eq (w : Nat) : Instruction.nib1 w = w / 256 % 16 := mask_0f00 w

/-- `nib2` computes nibble 2. -/
theorem nib2_eq (w : Nat) : Instruction.nib2 w = w / 16 % 16 := mask_00f0 w

/-- `nib3` computes nibble 3. -/
theorem nib3_eq (w : Nat) : Instruction.nib3 w = w % 16 := mask_000f w

/-- `get_x` computes nibble 1. -/
theorem get_x_eq (w : Nat) : Instruction.get_x w = w / 256 % 16 := mask_0f00 w

/-- `get_y` computes nibble 2. -/
theorem get_y_eq (w : Nat) : Instruction.get_y w = w / 16 % 16 := mask_00f0 w

/-- `get_addr` computes the low 12 bits. -/
theorem get_addr_eq (w : Nat) : Instruction.get_addr w = w % 4096 := mask_0fff w

/-- `get_byte` computes the low byte. -/
theorem get_byte_eq (w : Nat) : Instruction.get_byte w = w % 256 := mask_00ff w

/-- `get_nibble` computes the low nibble. -/
theorem get_nibble_eq (w : Nat) : Instruction.get_nibble w = w % 16 := mask_000f w

set_option maxHeartbeats 8000000

/-- Agreement of the implementation's decoder with the spec's §4.1 table on
the whole 16-bit input domain. -/
theorem parse_eq_specDecode (w : Nat) (hw : w < 65536) :
    Instruction.parse w = specDecode w := by
  delta Instruction.parse specDecode
  rw [nib0_eq w, nib1_eq w, nib2_eq w, nib3_eq w, get_x_eq w, get_y_eq w,
    get_addr_eq w, get_byte_eq w, get_nibble_eq w]
  have hmod : w / 4096 % 16 = w / 4096 := Nat.mod_eq_of_lt (by omega)
  rw [hmod]
  have hd : w / 4096 = 0 ∨ w / 4096 = 1 ∨ w / 4096 = 2 ∨ w / 4096 = 3 ∨
      w / 4096 = 4 ∨ w / 4096 = 5 ∨ w / 4096 = 6 ∨ w / 4096 = 7 ∨
      w / 4096 = 8 ∨ w / 4096 = 9 ∨ w / 4096 = 10 ∨ w / 4096 = 11 ∨
      w / 4096 = 12 ∨ w / 4096 = 13 ∨ w / 4096 = 14 ∨ w / 4096 = 15 := by
    omega
  rcases hd with h|h|h|h|h|h|h|h|h|h|h|h|h|h|h|h <;> rw [h] <;>
    (try rw [if_neg (show ¬ w = 224 by omega), if_neg (show ¬ w = 238 by omega)]) <;>
    (try simp only [Nat.reduceEqDiff, reduceIte, false_and, true_and, and_false,
      and_true, eq_self_iff_true, if_true, if_false]) <;>
    (repeat first | rfl | refine if_congr (by omega) rfl ?_)

/-- Pointwise update of a function-modelled fixed-size array. -/
def upd (f : Nat → Nat) (i v : Nat) : Nat → Nat := fun j => if j = i then v else f j

/-- Pointwise update of the function-modelled pixel grid (first index is
the outer Rust array index, bounded by 32; second the inner, bounded
by 64). -/
def updPix (d : Nat → Nat → Bool) (x y : Nat) (v : Bool) : Nat → Nat → Bool :=
  fun a b => if a = x ∧ b = y then v else d a b

/-- The Chip-8 display of `main.rs`: `arr: [[bool; 64]; 32]`, modelled as a
total function; `arr x y` is the Rust `arr[x][y]` (the `Debug` rendering
prints `arr[r]` as screen row `r`, so the first index is the screen row and
the second the screen column). -/
structure Display where
  arr : Nat → Nat → Bool

/-- `Display::new`: all pixels off. -/
def Display.new : Display := ⟨fun _ _ => false⟩

/-- `Display::xor`: `arr[x][y] ^= val`, returning the updated display
together with the collision flag `previous == true && arr[x][y] == false`. -/
def Display.xor (d : Display) (x y : Nat) (val : Bool) : Display × Bool :=
  let previous := d.arr x y
  let arr2 := updPix d.arr x y (Bool.xor (d.arr x y) val)
  (⟨arr2⟩, previous && !(arr2 x y))

/-- `Display::clear_screen`: switch all pixels off. -/
def Display.clear_screen (_d : Display) : Display := ⟨fun _ _ => false⟩

/-- The 16-key keyboard of `main.rs`: `keys: [bool; 16]`. -/
structure Keyboard where
  keys : Nat → Bool

/-- `Keyboard::new`: no key pressed. -/
def Keyboard.new : Keyboard := ⟨fun _ => false⟩

/-- `Keyboard::is_pressed`: `self.keys[key as usize]`. -/
def Keyboard.is_pressed (k : Keyboard) (key : Nat) : Bool := k.keys key

/-- `bits` of `main.rs`: the 8 bits of a byte, most-significant first;
`result[i] = ((val & (0x80 >> i)) >> (8 - i - 1)) == 1`. -/
def bits (val : Nat) : List Bool :=
  (List.range 8).map fun j => ((val &&& (0x80 >>> j)) >>> (8 - j - 1)) == 1

/-- The 80 font bytes written by `store_sprites!` into `mem[0]`…`mem[79]`
at construction (glyphs '0'–'F', 5 bytes each). -/
def fontData : List Nat :=
  [0xF0, 0x90, 0x90, 0x90, 0xF0,
   0x20, 0x60, 0x20, 0x20, 0x70,
   0xF0, 0x10, 0xF0, 0x80, 0xF0,
   0xF0, 0x10, 0xF0, 0x10, 0xF0,
   0x90, 0x90, 0xF0, 0x10, 0x10,
   0xF0, 0x80, 0xF0, 0x10, 0xF0,
   0xF0, 0x80, 0xF0, 0x90, 0xF0,
   0xF0, 0x10, 0x20, 0x40, 0x40,
   0xF0, 0x90, 0xF0, 0x90, 0xF0,
   0xF0, 0x90, 0xF0, 0x10, 0xF0,
   0xF0, 0x90, 0xF0, 0x90, 0x90,
   0xE0, 0x90, 0xE0, 0x90, 0xE0,
   0xF0, 0x80, 0x80, 0x80, 0xF0,
   0xE0, 0x90, 0x90, 0x90, 0xE0,
   0xF0, 0x80, 0xF0, 0x80, 0xF0,
   0xF0, 0x80, 0xF0, 0x80, 0x80]

/-- The emulator state of `main.rs` (`struct System`).  The fixed-size Rust
arrays (`regs: [u8; 16]`, `stack: [u16; 16]`, `mem: [u8; 4096]`) are
modelled as total functions out of `Nat`; in-range behaviour is identical
and out-of-range Rust accesses are modelled as `none` results where the
code can reach them. -/
structure System where
  regs : Nat → Nat
  i : Nat
  pc : Nat
  sp : Nat
  dt : Nat
  st : Nat
  stack : Nat → Nat
  mem : Nat → Nat
  display : Display
  keyboard : Keyboard

/-- `System::new`: zeroed state except the font in `mem[0..80]`. -/
def System.new : System :=
  { regs := fun _ => 0, i := 0, pc := 0, sp := 0, dt := 0, st := 0,
    stack := fun _ => 0, mem := fun a => fontData.getD a 0,
    display := Display.new, keyboard := Keyboard.new }

/-- `System::inc_pc`: `self.pc += 2` on a `u16`. -/
def System.inc_pc (s : System) : System := { s with pc := (s.pc + 2) % 65536 }

/-- `System::inc_sp`: `self.sp += 1` on a `u8`. -/
def System.inc_sp (s : System) : System := { s with sp := (s.sp + 1) % 256 }

/-- `u8::overflowing_add` on byte values: the wrapped sum and the carry
flag. -/
def overflowing_add (a b : Nat) : Nat × Bool := ((a + b) % 256, decide (255 < a + b))

/-- `u8::overflowing_sub` on byte values: the wrapped difference and the
borrow flag. -/
def overflowing_sub (a b : Nat) : Nat × Bool := ((a + 256 - b) % 256, decide (a < b))

/-- `System::fetch_instr`: reads the big-endian opcode from the two bytes
at `PC` (an out-of-bounds index — `PC + 1 ≥ 4096` — is a Rust panic,
modelled as `none`), advances `PC` by 2, then decrements each nonzero
timer; the terminal clear, sleep and debug print are host I/O with no
machine-state effect.  Returns the post-fetch state and the decode
result. -/
def System.fetch_instr (s : System) : Option (System × Option Instruction) :=
  if s.pc + 1 < 4096 then
    let opcode := s.mem s.pc * 256 + s.mem (s.pc + 1)
    let s1 := s.inc_pc
    let s2 := { s1 with dt := if s1.dt ≠ 0 then s1.dt - 1 else s1.dt,
                        st := if s1.st ≠ 0 then s1.st - 1 else s1.st }
    some (s2, Instruction.parse opcode)
  else none

/-- `System::apply`.  `rng` is the byte drawn by `rand::random::<u8>()` in
the `Rnd` arm, passed in explicitly so the function is pure; `% 256` /
`% 65536` mark the `u8` / `u16` width of the Rust value being stored.
`none` models a Rust panic (out-of-bounds slice or array index).  Arms are
in source order; the final catch-all covers `Sys`, `Or`, `Xor`, `Shr`,
`Subn`, `Shl`, `JpV0` and `LdKeypress`, for which the source only prints
the instruction — a state no-op. -/
def System.apply (s : System) (rng : Nat) : Instruction → Option System
  | .Ld x kk => some { s with regs := upd s.regs x (kk % 256) }
  | .LdI nnn => some { s with i := nnn % 65536 }
  | .Drw x y length =>
      if s.i + length ≤ 4096 then
        let sprite := (List.range length).map fun k => s.mem (s.i + k)
        some (sprite.enum.foldl (fun st cb =>
          (bits cb.2).enum.foldl (fun st2 rb =>
            let res := st2.display.xor (x + rb.1) (y + cb.1) rb.2
            { st2 with display := res.1,
                       regs := upd st2.regs 0xf (if res.2 then 1 else 0) }) st) s)
      else none
  | .Call nnn =>
      if s.sp < 16 then
        some { s with stack := upd s.stack s.sp s.pc,
                      sp := (s.sp + 1) % 256, pc := nnn % 65536 }
      else none
  | .LdBCD x =>
      if s.i + 2 < 4096 then
        let val := s.regs x
        some { s with mem := (upd (upd (upd s.mem s.i (val / 100 % 10))
                 (s.i + 1) (val / 10 % 10)) (s.i + 2) (val / 1 % 10)) }
      else none
  | .LdReadV0 x =>
      some { s with regs := ((List.range (min (x + 1) (4096 - s.i))).foldl
               (fun r j => upd r j (s.mem (s.i + j))) s.regs) }
  | .LdSprite x => some { s with i := x * 5 % 65536 }
  | .AddReg x kk => some { s with regs := upd s.regs x ((s.regs x + kk) % 256) }
  | .Ret =>
      if s.sp = 0 then some s
      else if s.sp - 1 < 16 then
        some { s with pc := s.stack (s.sp - 1), sp := s.sp - 1 }
      else none
  | .LdDelayTimerReg x => some { s with dt := s.regs x }
  | .LdDelayTimerValue x => some { s with regs := upd s.regs x s.dt }
  | .SeReg x y => some (if s.regs x = s.regs y then s.inc_pc else s)
  | .SneReg x y => some (if s.regs x ≠ s.regs y then s.inc_pc else s)
  | .Rnd x byte => some { s with regs := upd s.regs x (rng % 256 &&& byte) }
  | .Skp x => some (if s.keyboard.is_pressed x then s.inc_pc else s)
  | .Sknp x => some (if !s.keyboard.is_pressed x then s.inc_pc else s)
  | .And x y => some { s with regs := upd s.regs x (s.regs x &&& s.regs y) }
  | .AddCarry x y =>
      let r := overflowing_add (s.regs x) (s.regs y)
      some { s with regs := upd (upd s.regs x r.1) 0xf (if r.2 then 1 else 0) }
  | .Se x byte => some (if s.regs x = byte % 256 then s.inc_pc else s)
  | .Sne x byte => some (if s.regs x ≠ byte % 256 then s.inc_pc else s)
  | .Jp byte => some { s with pc := byte % 65536 }
  | .LdReg x y => some { s with regs := upd s.regs x (s.regs y) }
  | .Sub x y =>
      let r := overflowing_sub (s.regs x) (s.regs y)
      some { s with regs := upd (upd s.regs x r.1) 0xf (if r.2 then 1 else 0) }
  | .LdSoundTimer x => some { s with st := s.regs x }
  | .AddI x => some { s with i := (s.i + s.regs x) % 65536 }
  | .Cls => some { s with display := s.display.clear_screen }
  | .LdStoreV0 x =>
      if s.i + x < 4096 then
        some { s with mem := ((List.range (x + 1)).foldl
                 (fun m j => upd m (s.i + j) (s.regs j)) s.mem) }
      else none
  | _ => some s

/-- **C1** (code bug): from the fresh state (`I = 0`, all registers 0,
`mem[0] = 0xF0`, the font glyph for '0'), `Drw 0 0 1` lights pixel
`arr[1][0]` — screen row 1, column 0 — and leaves `arr[0][1]` (row 0,
column 1) dark: the code plots bit `r` of sprite byte `c` at
`arr[x + r][y + c]` from the literal operand nibbles, never reading
`reg[x]`/`reg[y]`, transposing the claimed `(column reg[x]+c, row
reg[y]+r)` placement, and with no modulo-64/32 wrap.  Repeating the same
draw turns all four pixels off again, yet leaves `reg[15] = 0`: the flag
keeps only the last plotted pixel's collision, not whether any collision
happened. -/
theorem C1_draw_divergences :
    ((System.new.apply 0 (.Drw 0 0 1)).map
      (fun s => (s.display.arr 1 0, s.display.arr 0 1)) = some (true, false)) ∧
    (((System.new.apply 0 (.Drw 0 0 1)).bind
      (fun s => s.apply 0 (.Drw 0 0 1))).map
        (fun s => (s.regs 15, s.display.arr 0 0, s.display.arr 1 0)) = some (0, false, false)) := by
  constructor
  · decide
  · decide

/-- **C5**: witness — the decoder agrees with the §4.1 table at the
spec's own example `0xD123` (`Draw-sprite x=1, y=2, n=3`). -/
theorem parse_eq_specDecode_witness :
    0xD123 < 65536 ∧ Instruction.parse 0xD123 = specDecode 0xD123 :=
  ⟨by decide, parse_eq_specDecode 0xD123 (by decide)⟩

/-- **C2** (code bug): with `reg[0] = 0x01` and `reg[1] = 0x02`,
`Sub 0 1` wraps `reg[0]` to `0xFF` but sets `reg[15] = 1`: the code
stores the borrow itself in the flag, not the claimed NOT-borrow (its own
variant doc in `instruction.rs` reads "set VF = NOT borrow"). -/
theorem C2_sub_flag_inverted :
    (({ System.new with regs := upd (upd System.new.regs 0 0x01) 1 0x02 } : System).apply 0
        (.Sub 0 1)).map (fun s => (s.regs 0, s.regs 15)) = some (0xFF, 1) := by
  decide

/-- **C3** (code bug): `fetch_instr` itself decrements both timers: from
`dt = 5`, `st = 3` at `pc = 0x200` (opcode `0x0000`, decoding to `Sys 0`),
the post-fetch state has `dt = 4`, `st = 2`, `pc = 0x202`; the claimed
separate 60 Hz `tick_timers` entry point does not exist in the code. -/
theorem C3_fetch_decrements_timers :
    (({ System.new with pc := 0x200, dt := 5, st := 3 } : System).fetch_instr).map
      (fun r => (r.1.dt, r.1.st, r.1.pc, r.2))
      = some (4, 2, 0x202, some (Instruction.Sys 0)) := by
  decide

/-- **C4** (code bug): the wait-for-key instruction (`Fx0A`,
`LdKeypress`) falls through to `apply`'s catch-all and is a complete
state no-op: no awaiting-key condition is recorded anywhere (the state has
no such flag), `reg[x]` is never written, and nothing suspends
progression. -/
theorem C4_keypress_noop (s : System) (rng x : Nat) :
    s.apply rng (.LdKeypress x) = some s := rfl

/-- **C6** (code bug): `Shr` (`8xy6`) and `Shl` (`8xyE`) fall through to
`apply`'s catch-all and are complete state no-ops: `reg[x]` is not
shifted and `reg[15]` is not written. -/
theorem C6_shift_noop (s : System) (rng x y : Nat) :
    s.apply rng (.Shr x y) = some s ∧ s.apply rng (.Shl x y) = some s :=
  ⟨rfl, rfl⟩

/-- **C7** counterexample: executing `Call` with `SP = 16` indexes
`stack[16]`, out of bounds for the 16-slot stack — an unchecked Rust
panic (modelled `none`), not a `StackOverflow` engine fault surfaced to
the host; `apply` has no fault channel at all. -/
theorem C7_call_overflow_panics :
    { System.new with sp := 16 }.apply 0 (.Call 0x300) = none := rfl

/-- **C7** amended: for `SP < 16`, `Call addr` stores the current `PC`
into `stack[SP]`, increments `SP`, and sets `PC = addr`; for `SP = 16`
the stack write is out of bounds and execution aborts in a panic
(modelled `none`) with no fault value surfaced to the host. -/
theorem C7_call (s : System) (rng nnn : Nat) :
    (s.sp < 16 → s.apply rng (.Call nnn)
      = some { s with stack := (upd s.stack s.sp s.pc),
                      sp := ((s.sp + 1) % 256), pc := (nnn % 65536) }) ∧
    (s.sp = 16 → s.apply rng (.Call nnn) = none) := by
  constructor
  · intro h
    simp only [System.apply]
    rw [if_pos h]
  · intro h
    simp only [System.apply]
    rw [if_neg (by omega)]

/-- **C7**: witness — the amended statement at `SP = 0` (a successful
push) and at `SP = 16` (the panic). -/
theorem C7_call_witness :
    (System.new.apply 0 (.Call 0x300)
      = some { System.new with stack := (upd System.new.stack 0 0), sp := 1, pc := 0x300 }) ∧
    ({ System.new with sp := 16 }.apply 0 (.Call 0x300) = none) :=
  ⟨(C7_call System.new 0 0x300).1 (by decide),
   (C7_call { System.new with sp := 16 } 0 0x300).2 rfl⟩

/-- **C8**: `Ret` with `SP = 0` returns the state unchanged (no fault);
with `SP > 0` (within §3's stack-pointer invariant `SP ≤ 16`) it
decrements `SP` by 1 and sets `PC` to the stack entry at the decremented
`SP`. -/
theorem C8_ret (s : System) (rng : Nat) :
    (s.sp = 0 → s.apply rng .Ret = some s) ∧
    (0 < s.sp → s.sp ≤ 16 → s.apply rng .Ret
      = some { s with pc := s.stack (s.sp - 1), sp := s.sp - 1 }) := by
  constructor
  · intro h
    simp only [System.apply]
    rw [if_pos h]
  · intro h h16
    simp only [System.apply]
    rw [if_neg (by omega), if_pos (by omega)]

/-- **C8**: witness — `Ret` at `SP = 0` and at `SP = 3` (with the popped
slot `stack[2] = 0`). -/
theorem C8_ret_witness :
    (System.new.apply 0 .Ret = some System.new) ∧
    ({ System.new with sp := 3 }.apply 0 .Ret
      = some { System.new with pc := 0, sp := 2 }) :=
  ⟨(C8_ret System.new 0).1 rfl,
   (C8_ret { System.new with sp := 3 } 0).2 (by decide) (by decide)⟩

/-- **C9** counterexample: `LdBCD` with `I = 4094` must write
`mem[4096]`, out of bounds — execution panics (modelled `none`); the
address is not wrapped modulo 4096. -/
theorem C9_bcd_oob_panics :
    { System.new with i := 4094 }.apply 0 (.LdBCD 0) = none := rfl

/-- **C9** amended: no memory-accessing instruction wraps its address
modulo 4096: `Drw` panics (`none`) when the sprite slice `I..I+n` passes
the end of memory, `LdBCD` when `I + 2 ≥ 4096`, `LdStoreV0` when
`I + x ≥ 4096`; `LdReadV0` alone never faults — its iterator silently
truncates at the end of memory. -/
theorem C9_no_wrapping (s : System) (rng x y n : Nat) :
    (4096 < s.i + n → s.apply rng (.Drw x y n) = none) ∧
    (4096 ≤ s.i + 2 → s.apply rng (.LdBCD x) = none) ∧
    (4096 ≤ s.i + x → s.apply rng (.LdStoreV0 x) = none) ∧
    (∃ t, s.apply rng (.LdReadV0 x) = some t) := by
  refine ⟨fun h => ?_, fun h => ?_, fun h => ?_, ⟨_, rfl⟩⟩
  · simp only [System.apply]
    rw [if_neg (by omega)]
  · simp only [System.apply]
    rw [if_neg (by omega)]
  · simp only [System.apply]
    rw [if_neg (by omega)]

/-- **C9**: witness — the amended statement at concrete out-of-range
addresses for `Drw`, `LdBCD` and `LdStoreV0`, and the non-faulting
`LdReadV0`. -/
theorem C9_no_wrapping_witness :
    ({ System.new with i := 4090 }.apply 0 (.Drw 0 0 10) = none) ∧
    ({ System.new with i := 4094 }.apply 0 (.LdBCD 1) = none) ∧
    ({ System.new with i := 4090 }.apply 0 (.LdStoreV0 6) = none) ∧
    (∃ t, System.new.apply 0 (.LdReadV0 5) = some t) :=
  ⟨(C9_no_wrapping { System.new with i := 4090 } 0 0 0 10).1 (by decide),
   (C9_no_wrapping { System.new with i := 4094 } 0 1 0 0).2.1 (by decide),
   (C9_no_wrapping { System.new with i := 4090 } 0 6 0 0).2.2.1 (by decide),
   (C9_no_wrapping System.new 0 5 0 0).2.2.2⟩

/-- **C10**: `Skp x` adds 2 to `PC` (modulo the `u16` width, §7's defined
`PC` wraparound) exactly when key `x` — the literal operand nibble, not
`reg[x]` — is pressed, and `Sknp x` exactly when it is not; neither
touches any state component other than `PC` (the operand bound `x < 16`
is the 16-entry `keys` array's index range, which every decoded operand
satisfies). -/
theorem C10_skp_sknp (s : System) (rng x : Nat) (_hx : x < 16) :
    s.apply rng (.Skp x)
      = some (if s.keyboard.keys x then { s with pc := (s.pc + 2) % 65536 } else s) ∧
    s.apply rng (.Sknp x)
      = some (if s.keyboard.keys x then s else { s with pc := (s.pc + 2) % 65536 }) := by
  constructor <;>
    simp only [System.apply, Keyboard.is_pressed, System.inc_pc] <;>
    cases h : s.keyboard.keys x <;> simp

/-- A state with exactly key 5 pressed and `PC = 0x200`, for the C10
witness. -/
def key5State : System :=
  { System.new with pc := 0x200, keyboard := ⟨fun k => k == 5⟩ }

/-- **C10**: witness — `Skp 5` and `Sknp 5` on a state with key 5
pressed at `PC = 0x200`: `Skp` advances to `0x202`, `Sknp` stays. -/
theorem C10_skp_sknp_witness :
    key5State.apply 0 (.Skp 5) = some { key5State with pc := 0x202 } ∧
    key5State.apply 0 (.Sknp 5) = some key5State := by
  have h := C10_skp_sknp key5State 0 5 (by decide)
  constructor
  · rw [h.1]; rfl
  · rw [h.2]; rfl

end Chip8
